import Mathlib

/-!
Verification of the runtime support layer of `wit-bindgen`'s guest-Rust
crate (`crates/guest-rust/src/lib.rs`): the `Resource` handle lifecycle,
the boxed representation slot behind Rust-defined resources, the
`cabi_realloc` allocator shim, the canonical value lifters, and the
one-time constructor guard.

Machine integers (`u32`, `usize`, `u8`) are modelled as `Nat` with
explicit domain bounds stated where they matter.  Build profiles
(`cfg!(debug_assertions)`) are modelled by an explicit `debug : Bool`
parameter.  Panics and undefined behavior are modelled as `Except`
error values.
-/

/-- Sentinel handle value `u32::MAX`, denoting "no handle / already taken". -/
def SENTINEL : Nat := 4294967295

/-- State of a `Resource<T>`: its `handle: AtomicU32` field.  The phantom
marker of the Rust struct carries no data and is dropped; the intrinsics
of the type parameter `T` are modelled separately (`RustResource` below). -/
structure Resource where
  handle : Nat
deriving Repr, DecidableEq

namespace Resource

/-- Embedding of `Resource::take_handle`:
`resource.handle.swap(u32::MAX, Relaxed)` — returns the previous handle
value and leaves the sentinel in the field. -/
def take_handle (resource : Resource) : Nat × Resource :=
  (resource.handle, { handle := SENTINEL })

/-- Embedding of the `Resource::handle` accessor: a non-destructive atomic
load of the handle field. -/
def handleRead (resource : Resource) : Nat :=
  resource.handle

/-- Embedding of `Resource::from_handle`: `assert!(handle != u32::MAX)`,
then wraps the handle.  `none` models the assertion panic; `assert!` is
active in every build profile. -/
def from_handle (handle : Nat) : Option Resource :=
  if handle = SENTINEL then none
  else some { handle := handle }

/-- Results of `n` successive `take_handle` calls on the same resource:
the list of returned values together with the final state. -/
def takeSeq : Resource → Nat → List Nat × Resource
  | r, 0 => ([], r)
  | r, n+1 =>
    let p := take_handle r
    let q := takeSeq p.2 n
    (p.1 :: q.1, q.2)

/-- Embedding of `impl<T: WasmResource> Drop for Resource<T>`: the list of
`T::drop` boundary-intrinsic invocations the destructor performs, with
their handle argument.  The source matches the loaded handle against
`u32::MAX` (no call) and otherwise calls `T::drop(other)` once. -/
def dropEffects (r : Resource) : List Nat :=
  if r.handle = SENTINEL then [] else [r.handle]

end Resource

theorem takeSeq_sentinel (n : Nat) :
    Resource.takeSeq { handle := SENTINEL } n =
      (List.replicate n SENTINEL, { handle := SENTINEL }) := by
  induction n with
  | zero => rfl
  | succ k ih =>
    simp [Resource.takeSeq, Resource.take_handle, ih, List.replicate]

theorem takeSeq_succ (r : Resource) (n : Nat) :
    Resource.takeSeq r (n+1) =
      (r.handle :: List.replicate n SENTINEL, { handle := SENTINEL }) := by
  simp [Resource.takeSeq, Resource.take_handle, takeSeq_sentinel]

theorem countP_ne_sentinel_replicate (n : Nat) :
    (List.replicate n SENTINEL).countP (fun v => v != SENTINEL) = 0 := by
  induction n with
  | zero => rfl
  | succ k ih => simp [List.replicate, List.countP_cons, ih]

/-- C1: for every Resource and every sequence of `take_handle` calls on it,
at most one call returns the pre-sentinel handle value (the first call
returns the prior handle, every later call returns `u32::MAX`), a
subsequent handle read returns the sentinel, and the handle field only
ever transitions to the sentinel — a take on a sentinel-holding resource
returns the sentinel and leaves the field at the sentinel. -/
theorem take_handle_at_most_once (r : Resource) (n : Nat) :
    (Resource.takeSeq r (n+1)).1 = r.handle :: List.replicate n SENTINEL ∧
    (Resource.takeSeq r (n+1)).1.countP (fun v => v != SENTINEL) ≤ 1 ∧
    (Resource.takeSeq r (n+1)).2.handle = SENTINEL ∧
    Resource.handleRead (Resource.take_handle r).2 = SENTINEL ∧
    Resource.take_handle { handle := SENTINEL } =
      (SENTINEL, { handle := SENTINEL }) := by
  refine ⟨by simp [takeSeq_succ], ?_, by simp [takeSeq_succ], rfl, rfl⟩
  rw [takeSeq_succ]
  simp only [List.countP_cons, countP_ne_sentinel_replicate]
  by_cases h : r.handle = SENTINEL <;> simp [h]

/-- C2: the destructor of a Resource holding the sentinel performs no
boundary drop-intrinsic call; the destructor of a Resource holding a
valid handle `h` calls `T::drop` exactly once, passing `h`.  In
particular a Resource dropped after `take_handle` performs no call, and
one constructed by `from_handle` and dropped untouched performs exactly
one. -/
theorem drop_effects_spec (r : Resource) (h : Nat) (hv : h ≠ SENTINEL) :
    Resource.dropEffects { handle := SENTINEL } = [] ∧
    Resource.dropEffects { handle := h } = [h] ∧
    Resource.dropEffects (Resource.take_handle r).2 = [] ∧
    (∀ res, Resource.from_handle h = some res →
      Resource.dropEffects res = [h]) := by
  refine ⟨by simp [Resource.dropEffects], by simp [Resource.dropEffects, hv], by simp [Resource.take_handle, Resource.dropEffects], ?_⟩
  intro res hres
  simp [Resource.from_handle, hv] at hres
  simp [← hres, Resource.dropEffects, hv]

theorem drop_effects_spec_witness :
    Resource.dropEffects { handle := SENTINEL } = [] ∧
    Resource.dropEffects { handle := 5 } = [5] ∧
    Resource.dropEffects (Resource.take_handle { handle := 5 }).2 = [] ∧
    (∀ res, Resource.from_handle 5 = some res →
      Resource.dropEffects res = [5]) :=
  drop_effects_spec { handle := 5 } 5 (by decide)

/-- C5: `from_handle` panics (assertion) when passed the sentinel
`u32::MAX`, and for every non-sentinel `u32` handle it succeeds, yielding
a live Resource whose handle field holds exactly the given value. -/
theorem from_handle_spec (h : Nat) (_hlt : h < 4294967296) (hv : h ≠ SENTINEL) :
    Resource.from_handle SENTINEL = none ∧
    Resource.from_handle h = some { handle := h } := by
  exact ⟨by simp [Resource.from_handle], by simp [Resource.from_handle, hv]⟩

theorem from_handle_spec_witness :
    Resource.from_handle SENTINEL = none ∧
    Resource.from_handle 7 = some { handle := 7 } :=
  from_handle_spec 7 (by decide) (by decide)

/-- Boundary intrinsics of a Rust-defined resource, from the
`RustResource` trait: `new` registers a representation token with the
boundary and returns a fresh handle; `rep` resolves a handle back to the
token originally passed to `new`. -/
structure RustResource where
  newFn : Nat → Nat
  repFn : Nat → Nat

/-- Heap of boxed representation slots (`Box<RawRep<T>>` with
`RawRep<T> = Option<T>`): `none` at an address means no live box there,
`some slot` a live box holding the optional host value. -/
def Heap (T : Type) : Type := Nat → Option (Option T)

/-- Pointwise update of the heap at one address. -/
def Heap.update {T : Type} (hp : Heap T) (a : Nat) (v : Option (Option T)) :
    Heap T :=
  fun x => if x = a then v else hp x

/-- Failure modes of a representation-slot access. -/
inductive TakeErr
  | danglingUB
  | emptySlotPanic
deriving Repr, DecidableEq

/-- Embedding of `Resource::new`: moves the value into a fresh
heap-boxed `Some(val)` at address `t` (`Box::into_raw(Box::new(Some(val)))`),
invokes `T::new(t)` to obtain a handle and wraps it with `from_handle`.
Returns the resource and the updated heap; `none` models the
`from_handle` assertion panicking on a sentinel-valued handle. -/
def resourceNew {T : Type} (B : RustResource) (hp : Heap T) (t : Nat) (val : T) :
    Option (Resource × Heap T) :=
  match Resource.from_handle (B.newFn t) with
  | none => none
  | some r => some (r, hp.update t (some (some val)))

/-- Embedding of `Resource::into_inner`: resolves the representation
token with `T::rep(handle)`, then runs
`RawRep::take(&mut *(rep as *mut RawRep<T>)).unwrap()`, emptying the slot
and returning the value.  The `debug` build-profile flag is threaded
through because the crate distinguishes profiles elsewhere, but this
path contains no `cfg(debug_assertions)` branch: `Option::unwrap` panics
on an empty slot (`emptySlotPanic`) in debug and release alike, so the
result does not depend on `debug`.  Only the raw-pointer dereference is
unchecked: a token pointing at no live box is undefined behavior
(`danglingUB`).  The destructor of the consumed wrapper additionally
drops the handle (see `Resource.dropEffects`). -/
def into_inner {T : Type} (debug : Bool) (B : RustResource) (hp : Heap T)
    (r : Resource) : Except TakeErr (T × Heap T) :=
  let rep := B.repFn r.handle
  match hp rep with
  | none => .error .danglingUB
  | some none => .error .emptySlotPanic
  | some (some v) => .ok (v, hp.update rep (some none))

/-- C3 counterexample: on an already-empty slot, the release
(`debug = false`) build of `into_inner` is not unchecked — the
unconditional `Option::unwrap` rejects the empty slot with the
contract-violation panic, the same as the debug build, because the
source contains no `cfg(debug_assertions)` branch on this path. -/
theorem into_inner_release_rejects_empty_slot :
    into_inner (T := Nat) false { newFn := fun r => r, repFn := fun h => h }
        (Heap.update (fun _ => none) 7 (some none)) { handle := 7 } =
      .error .emptySlotPanic ∧
    into_inner (T := Nat) true { newFn := fun r => r, repFn := fun h => h }
        (Heap.update (fun _ => none) 7 (some none)) { handle := 7 } =
      .error .emptySlotPanic := by
  constructor <;> rfl

/-- C3 (amended): a second `into_inner` on the same, already-empty
representation slot is rejected with a contract-violation panic
(`Option::unwrap` on `None`) in every build profile — the emptiness
check is unconditional, not debug-only; only the raw-pointer
dereference itself is unchecked. -/
theorem into_inner_empty_slot_rejected {T : Type} (debug : Bool)
    (B : RustResource) (hp : Heap T) (r : Resource)
    (hempty : hp (B.repFn r.handle) = some none) :
    into_inner debug B hp r = .error .emptySlotPanic := by
  simp [into_inner, hempty]

theorem into_inner_empty_slot_rejected_witness :
    (Heap.update (T := Nat) (fun _ => none) 3 (some none))
        (RustResource.repFn { newFn := fun r => r, repFn := fun h => h }
          (Resource.handle { handle := 3 })) = some none ∧
    into_inner (T := Nat) false { newFn := fun r => r, repFn := fun h => h }
        (Heap.update (fun _ => none) 3 (some none)) { handle := 3 } =
      .error .emptySlotPanic :=
  ⟨rfl, into_inner_empty_slot_rejected false _ _ _ rfl⟩

/-- C4: `Resource::new(v)` followed by `Resource::into_inner` returns
exactly `v`, provided the boundary intrinsics satisfy
`rep(new(r)) = r` for every representation token `r` and the handle
`new` returns for the fresh box is not the sentinel (else the
`from_handle` assertion fires).  The box address `t` is fresh
(unallocated in `hp`); afterwards its slot is empty. -/
theorem new_into_inner_roundtrip {T : Type} (debug : Bool) (B : RustResource)
    (hp : Heap T) (t : Nat) (v : T)
    (hrep : ∀ r, B.repFn (B.newFn r) = r)
    (hns : B.newFn t ≠ SENTINEL) :
    resourceNew B hp t v =
      some ({ handle := B.newFn t }, hp.update t (some (some v))) ∧
    into_inner debug B (hp.update t (some (some v))) { handle := B.newFn t } =
      .ok (v, (hp.update t (some (some v))).update t (some none)) := by
  constructor
  · simp [resourceNew, Resource.from_handle, hns]
  · simp [into_inner, hrep, Heap.update]

theorem new_into_inner_roundtrip_witness :
    ((∀ r, RustResource.repFn { newFn := fun r => r + 1, repFn := fun h => h - 1 }
        (RustResource.newFn { newFn := fun r => r + 1, repFn := fun h => h - 1 } r) = r) ∧
      RustResource.newFn { newFn := fun r => r + 1, repFn := fun h => h - 1 } 0 ≠ SENTINEL) ∧
    (resourceNew (T := Nat) { newFn := fun r => r + 1, repFn := fun h => h - 1 }
        (fun _ => none) 0 42 =
      some ({ handle := 1 }, Heap.update (fun _ => none) 0 (some (some 42))) ∧
    into_inner (T := Nat) false { newFn := fun r => r + 1, repFn := fun h => h - 1 }
        (Heap.update (fun _ => none) 0 (some (some 42))) { handle := 1 } =
      .ok (42, (Heap.update (T := Nat) (fun _ => none) 0
        (some (some 42))).update 0 (some none))) :=
  ⟨⟨fun r => rfl, by decide⟩,
    new_into_inner_roundtrip false { newFn := fun r => r + 1, repFn := fun h => h - 1 }
      (fun _ => none) 0 42 (fun r => rfl) (by decide)⟩

/-- Allocation effects performed by the allocator shim: a fresh
`alloc::alloc(layout)` or an `alloc::realloc(old_ptr, layout, new_len)`. -/
inductive AllocEffect
  | allocE (size align : Nat)
  | reallocE (oldPtr oldLen align newLen : Nat)
deriving Repr, DecidableEq

/-- Contents of a fresh allocation of `n` bytes.  The source leaves the
bytes uninitialized; they are modelled as zeros, and the claims
constrain only the region's length. -/
def allocBytes (n : Nat) : List Nat :=
  List.replicate n 0

/-- Modelled from the documented contract of `alloc::realloc` (an
external collaborator of `cabi_realloc`): the returned block holds the
old block's bytes up to the minimum of the old and new lengths; any
bytes beyond are uninitialized, modelled as zeros. -/
def reallocBytes (old : List Nat) (newLen : Nat) : List Nat :=
  old.take newLen ++ List.replicate (newLen - old.length) 0

/-- Embedding of `rt::cabi_realloc(old_ptr, old_len, align, new_len)`.
The underlying allocator is abstracted by `allocPtr`, the (non-null)
pointer it would return; the success value is the returned pointer, the
resulting block contents, and the list of allocator calls made.  With
`old_len = 0` and `new_len = 0` the shim returns `align` itself as a
sentinel pointer and calls no allocator; with `old_len = 0` and
`new_len > 0` it calls `alloc`; otherwise it first runs
`debug_assert_ne!(new_len, 0)` — active only when `debug` — and then
calls `realloc`.  The error value is the debug-assertion panic message. -/
def cabi_realloc (debug : Bool) (allocPtr : Nat)
    (oldPtr oldLen align newLen : Nat) (old : List Nat) :
    Except String (Nat × List Nat × List AllocEffect) :=
  if oldLen = 0 then
    if newLen = 0 then
      .ok (align, [], [])
    else
      .ok (allocPtr, allocBytes newLen, [.allocE newLen align])
  else if debug && newLen == 0 then
    .error "non-zero old_len requires non-zero new_len!"
  else
    .ok (allocPtr, reallocBytes old newLen, [.reallocE oldPtr oldLen align newLen])

theorem reallocBytes_take_min (old : List Nat) (n : Nat) :
    (reallocBytes old n).take (min old.length n) =
      old.take (min old.length n) := by
  rcases Nat.le_total n old.length with hle | hle
  · rw [Nat.min_eq_right hle]
    simp [reallocBytes, Nat.sub_eq_zero_of_le hle, List.take_take]
  · rw [Nat.min_eq_left hle]
    rw [reallocBytes, List.take_of_length_le hle, List.take_append_eq_append_take]
    simp

theorem reallocBytes_length (old : List Nat) (n : Nat) :
    (reallocBytes old n).length = n := by
  simp [reallocBytes]
  omega

/-- C6: the allocator shim returns the alignment itself (a non-null
sentinel) with no allocator call when both lengths are zero; performs a
single fresh allocation of `new_len` bytes at `align` when only the new
length is nonzero; with a nonzero old length performs a single
reallocation whose result preserves the old bytes up to the minimum of
the two lengths; and the nonzero-old-length-requires-nonzero-new-length
contract is checked only in debug builds. -/
theorem cabi_realloc_spec :
    (∀ debug p oldPtr align old, 0 < align →
      cabi_realloc debug p oldPtr 0 align 0 old = .ok (align, [], []) ∧
      align ≠ 0) ∧
    (∀ debug p oldPtr align n old, n ≠ 0 →
      cabi_realloc debug p oldPtr 0 align n old =
        .ok (p, allocBytes n, [.allocE n align]) ∧
      (allocBytes n).length = n) ∧
    (∀ debug p oldPtr align n (old : List Nat), old.length ≠ 0 → n ≠ 0 →
      cabi_realloc debug p oldPtr old.length align n old =
        .ok (p, reallocBytes old n, [.reallocE oldPtr old.length align n]) ∧
      (reallocBytes old n).take (min old.length n) =
        old.take (min old.length n) ∧
      (reallocBytes old n).length = n) ∧
    (∀ p oldPtr align m old, m ≠ 0 →
      cabi_realloc true p oldPtr m align 0 old =
        .error "non-zero old_len requires non-zero new_len!" ∧
      cabi_realloc false p oldPtr m align 0 old =
        .ok (p, reallocBytes old 0, [.reallocE oldPtr m align 0])) := by
  refine ⟨?_, ?_, ?_, ?_⟩
  · intro debug p oldPtr align old h
    exact ⟨by simp [cabi_realloc], by omega⟩
  · intro debug p oldPtr align n old hn
    exact ⟨by simp [cabi_realloc, hn], by simp [allocBytes]⟩
  · intro debug p oldPtr align n old hold hn
    exact ⟨by simp [cabi_realloc, hold, hn],
      reallocBytes_take_min old n, reallocBytes_length old n⟩
  · intro p oldPtr align m old hm
    exact ⟨by simp [cabi_realloc, hm], by simp [cabi_realloc, hm]⟩

theorem cabi_realloc_spec_witness :
    cabi_realloc true 4096 0 0 8 0 [] = .ok (8, [], []) ∧
    cabi_realloc true 4096 0 0 8 64 [] =
      .ok (4096, allocBytes 64, [.allocE 64 8]) ∧
    cabi_realloc true 4096 0 2 8 3 [10, 11] =
      .ok (4096, reallocBytes [10, 11] 3, [.reallocE 0 2 8 3]) ∧
    cabi_realloc true 4096 0 2 8 0 [10, 11] =
      .error "non-zero old_len requires non-zero new_len!" ∧
    cabi_realloc false 4096 0 2 8 0 [10, 11] =
      .ok (4096, reallocBytes [10, 11] 0, [.reallocE 0 2 8 0]) :=
  ⟨(cabi_realloc_spec.1 true 4096 0 8 [] (by decide)).1,
   (cabi_realloc_spec.2.1 true 4096 0 8 64 [] (by decide)).1,
   (cabi_realloc_spec.2.2.1 true 4096 0 8 3 [10, 11] (by decide) (by decide)).1,
   (cabi_realloc_spec.2.2.2 4096 0 8 2 [10, 11] (by decide)).1,
   (cabi_realloc_spec.2.2.2 4096 0 8 2 [10, 11] (by decide)).2⟩

/-- Failure modes of a canonical value lift: a checked-mode panic with
its message, or undefined behavior from feeding invalid input to an
unchecked-mode conversion. -/
inductive LiftErr
  | panicked (msg : String)
  | ub
deriving Repr, DecidableEq

/-- Embedding of `rt::bool_lift(val: u8)`.  In debug builds the source
matches `0 => false`, `1 => true` and panics otherwise; in release it
transmutes the byte to `bool`, which is defined only for `0` and `1`
(any other byte is undefined behavior, modelled as `.error .ub`). -/
def bool_lift (debug : Bool) (val : Nat) : Except LiftErr Bool :=
  if debug then
    match val with
    | 0 => .ok false
    | 1 => .ok true
    | _ => .error (.panicked "invalid bool discriminant")
  else
    match val with
    | 0 => .ok false
    | 1 => .ok true
    | _ => .error .ub

/-- Validity of a `u32` as a Unicode scalar value, the domain of
`core::char::from_u32`: below the surrogate range, or between the end of
the surrogate range and `0x110000`. -/
def isValidScalar (val : Nat) : Bool :=
  val < 0xD800 || (0xE000 ≤ val && val < 0x110000)

/-- Embedding of `rt::char_lift(val: u32)`.  A character is identified
with its scalar value.  In debug builds the source runs
`char::from_u32(val).unwrap()`, panicking on an invalid scalar; in
release it runs `char::from_u32_unchecked(val)`, whose documented
contract makes an invalid scalar undefined behavior. -/
def char_lift (debug : Bool) (val : Nat) : Except LiftErr Nat :=
  if debug then
    if isValidScalar val then .ok val
    else .error (.panicked "called `Option::unwrap()` on a `None` value")
  else
    if isValidScalar val then .ok val
    else .error .ub

/-- Continuation byte of a UTF-8 sequence: `0x80 ..= 0xBF`. -/
def isCont (b : Nat) : Bool :=
  0x80 ≤ b && b ≤ 0xBF

/-- Well-formedness of a byte sequence as UTF-8, the validation
performed by `String::from_utf8` (per the UTF-8 byte-range table:
one-byte `00..7F`; two-byte `C2..DF` plus continuation; three-byte
`E0 A0..BF`, `E1..EC` / `EE..EF` with two continuations, `ED 80..9F`
excluding surrogates; four-byte `F0 90..BF`, `F1..F3`, `F4 80..8F`,
each with trailing continuations). -/
def utf8Valid : List Nat → Bool
  | [] => true
  | b :: rest =>
    if b ≤ 0x7F then utf8Valid rest
    else if 0xC2 ≤ b && b ≤ 0xDF then
      match rest with
      | c1 :: rest2 => isCont c1 && utf8Valid rest2
      | [] => false
    else if b == 0xE0 then
      match rest with
      | c1 :: c2 :: rest2 =>
        (0xA0 ≤ c1 && c1 ≤ 0xBF) && isCont c2 && utf8Valid rest2
      | _ => false
    else if (0xE1 ≤ b && b ≤ 0xEC) || b == 0xEE || b == 0xEF then
      match rest with
      | c1 :: c2 :: rest2 => isCont c1 && isCont c2 && utf8Valid rest2
      | _ => false
    else if b == 0xED then
      match rest with
      | c1 :: c2 :: rest2 =>
        (0x80 ≤ c1 && c1 ≤ 0x9F) && isCont c2 && utf8Valid rest2
      | _ => false
    else if b == 0xF0 then
      match rest with
      | c1 :: c2 :: c3 :: rest2 =>
        (0x90 ≤ c1 && c1 ≤ 0xBF) && isCont c2 && isCont c3 && utf8Valid rest2
      | _ => false
    else if 0xF1 ≤ b && b ≤ 0xF3 then
      match rest with
      | c1 :: c2 :: c3 :: rest2 =>
        isCont c1 && isCont c2 && isCont c3 && utf8Valid rest2
      | _ => false
    else if b == 0xF4 then
      match rest with
      | c1 :: c2 :: c3 :: rest2 =>
        (0x80 ≤ c1 && c1 ≤ 0x8F) && isCont c2 && isCont c3 && utf8Valid rest2
      | _ => false
    else false

/-- Embedding of `rt::string_lift(bytes)`.  A Rust `String` is its UTF-8
byte buffer, so the lifted value is the byte list itself.  In debug
builds the source runs `String::from_utf8(bytes).unwrap()`, validating
and panicking on ill-formed UTF-8; in release it runs
`String::from_utf8_unchecked(bytes)`, whose documented contract makes
ill-formed input undefined behavior. -/
def string_lift (debug : Bool) (bytes : List Nat) : Except LiftErr (List Nat) :=
  if debug then
    if utf8Valid bytes then .ok bytes
    else .error (.panicked "invalid utf-8 sequence")
  else
    if utf8Valid bytes then .ok bytes
    else .error .ub

/-- C7: in debug builds `bool_lift` maps byte `0` to `false`, byte `1`
to `true`, and panics on every other byte value. -/
theorem bool_lift_checked_spec (v : Nat) (hv : v < 256) :
    bool_lift true 0 = .ok false ∧
    bool_lift true 1 = .ok true ∧
    (2 ≤ v → bool_lift true v = .error (.panicked "invalid bool discriminant")) := by
  refine ⟨rfl, rfl, ?_⟩
  intro h2
  match v, h2 with
  | n + 2, _ => rfl

theorem bool_lift_checked_spec_witness :
    bool_lift true 0 = .ok false ∧
    bool_lift true 1 = .ok true ∧
    (2 ≤ 2 → bool_lift true 2 = .error (.panicked "invalid bool discriminant")) :=
  bool_lift_checked_spec 2 (by decide)

/-- C8: in debug builds `char_lift` maps every legal Unicode scalar
value to the corresponding character (identified with its code) and
panics on every 32-bit code that is not a legal scalar value, such as
the surrogate `0xD800`. -/
theorem char_lift_checked_spec (v : Nat) (_hv : v < 4294967296) :
    (isValidScalar v = true → char_lift true v = .ok v) ∧
    (isValidScalar v = false →
      char_lift true v =
        .error (.panicked "called `Option::unwrap()` on a `None` value")) ∧
    char_lift true 0x41 = .ok 0x41 ∧
    isValidScalar 0xD800 = false := by
  refine ⟨?_, ?_, rfl, by decide⟩
  · intro h; simp [char_lift, h]
  · intro h; simp [char_lift, h]

theorem char_lift_checked_spec_witness :
    (isValidScalar 0xD800 = true → char_lift true 0xD800 = .ok 0xD800) ∧
    (isValidScalar 0xD800 = false →
      char_lift true 0xD800 =
        .error (.panicked "called `Option::unwrap()` on a `None` value")) ∧
    char_lift true 0x41 = .ok 0x41 ∧
    isValidScalar 0xD800 = false :=
  char_lift_checked_spec 0xD800 (by decide)

/-- C10: on every input accepted by the checked validation, the debug
and release builds of each lifter agree: `string_lift` on well-formed
UTF-8, `char_lift` on legal scalar values, and `bool_lift` on bytes `0`
and `1` return identical host values in both build profiles. -/
theorem checked_unchecked_agree :
    (∀ bytes, utf8Valid bytes = true →
      string_lift true bytes = string_lift false bytes) ∧
    (∀ v, isValidScalar v = true → char_lift true v = char_lift false v) ∧
    (∀ v, v = 0 ∨ v = 1 → bool_lift true v = bool_lift false v) := by
  refine ⟨?_, ?_, ?_⟩
  · intro bytes h; simp [string_lift, h]
  · intro v h; simp [char_lift, h]
  · rintro v (rfl | rfl) <;> rfl

theorem checked_unchecked_agree_witness :
    string_lift true [0x6F, 0x6B] = string_lift false [0x6F, 0x6B] ∧
    char_lift true 0x41 = char_lift false 0x41 ∧
    bool_lift true 1 = bool_lift false 1 :=
  ⟨checked_unchecked_agree.1 [0x6F, 0x6B] (by decide),
   checked_unchecked_agree.2.1 0x41 (by decide),
   checked_unchecked_agree.2.2 1 (Or.inr rfl)⟩

/-- Embedding of one invocation of `rt::run_ctors_once`: given the
process-wide `RUN` flag, returns how many times `__wasm_call_ctors` was
invoked by this call (`1` on the first call, `0` after) and the updated
flag. -/
def run_ctors_once (run : Bool) : Nat × Bool :=
  if !run then (1, true) else (0, run)

/-- Numbers of `__wasm_call_ctors` invocations performed by `n`
successive exported-entry-point calls (each beginning with
`run_ctors_once`), starting from flag state `run`. -/
def ctorTrace : Bool → Nat → List Nat
  | _, 0 => []
  | run, n+1 =>
    let p := run_ctors_once run
    p.1 :: ctorTrace p.2 n

theorem ctorTrace_already_run (n : Nat) :
    ctorTrace true n = List.replicate n 0 := by
  induction n with
  | zero => rfl
  | succ k ih => simp [ctorTrace, run_ctors_once, ih, List.replicate]

/-- C9: across any number of entry-point invocations starting from the
initial flag state, `__wasm_call_ctors` runs exactly once: the first
invocation runs it and flips the flag, and every later invocation
performs no constructor call. -/
theorem run_ctors_once_exactly_once (n : Nat) :
    ctorTrace false (n+1) = 1 :: List.replicate n 0 ∧
    (ctorTrace false (n+1)).sum = 1 := by
  have h : ctorTrace false (n+1) = 1 :: List.replicate n 0 := by
    simp [ctorTrace, run_ctors_once, ctorTrace_already_run]
  refine ⟨h, ?_⟩
  simp [h, List.sum_replicate]
